import Mathlib

/-!
Verification of the anchored math-text layout subsystem of bokehjs
(`src/lib/core/math_graphics.ts`).

The TypeScript classes `MathBox`, `TeXBox`, `MathMLBox` and `AsciiBox` are
shallowly embedded below.  JavaScript numbers are modelled as `Option ℚ`
(`none` standing for `NaN`), thrown exceptions as `Except`, and the single
field mutated by the subsystem (`this.valign`) is threaded explicitly through
the functions that can update it.  External utilities that are not part of
the verified sources (`font_metrics`, the colour conversions) enter as an
abstract environment record.
-/

set_option maxRecDepth 10000

namespace Bokeh

/-- JavaScript number: `none` models `NaN` (every arithmetic operation on it
yields `NaN` again, every comparison with it is false). -/
def JSNum := Option ℚ
deriving DecidableEq, Repr

/-- Multiplication of JavaScript numbers (`NaN` absorbing). -/
def jsMul : JSNum → JSNum → JSNum
  | some a, some b => some (a * b)
  | _, _ => none

/-- Addition of JavaScript numbers (`NaN` absorbing). -/
def jsAdd : JSNum → JSNum → JSNum
  | some a, some b => some (a + b)
  | _, _ => none

/-- Subtraction of JavaScript numbers (`NaN` absorbing). -/
def jsSub : JSNum → JSNum → JSNum
  | some a, some b => some (a - b)
  | _, _ => none

/-- `Math.max` on JavaScript numbers: `NaN` if either argument is `NaN`. -/
def jsMax : JSNum → JSNum → JSNum
  | some a, some b => some (max a b)
  | _, _ => none

/-- The comparison `q > x` on JavaScript numbers: false when `x` is `NaN`. -/
def jsGtQ (q : ℚ) : JSNum → Bool
  | some b => decide (b < q)
  | none => false

/-- Font metrics record, as produced by the external `font_metrics` utility
(`core/util/text`, outside the verified sources): ascent, descent, line
height and x-height of a font specification. -/
structure FontMetrics where
  ascent : ℚ
  descent : ℚ
  height : ℚ
  x_height : ℚ
deriving DecidableEq, Repr

/-- Load status of the MathJax typesetting provider
(`models/text/providers`). -/
inductive ProviderStatus
  | not_started
  | loading
  | loaded
  | failed
deriving DecidableEq, Repr

/-- The SVG element returned by a MathJax conversion, restricted to the three
attributes the subsystem queries: `height`, `width` (in `ex` units) and the
inline `style` (possibly carrying a `vertical-align` rule).  A `none`
attribute models `getAttribute` returning `null`. -/
structure SvgEl where
  height : Option String
  width : Option String
  style : Option String
deriving DecidableEq, Repr

/-- Handle to the loaded MathJax engine.  `tex2svg` and `mathml2svg` take the
styled formula and the `em`/`ex` unit hints and give back the first child of
the conversion result (the projection `…​.children[0]` of the source is folded
into the handle).  The `em` hint is a JavaScript number because the box's
base font size may be undefined. -/
structure MathJaxHandle where
  tex2svg : String → Option ℚ → ℚ → SvgEl
  mathml2svg : String → Option ℚ → ℚ → SvgEl

/-- The process-wide typesetting provider: a status and, once loaded, the
MathJax handle. -/
structure Provider where
  status : ProviderStatus
  mathjax : Option MathJaxHandle

/-- Modelled from the spec: the provider (`models/text/providers`, outside the
verified sources) holds "a handle to its conversion API once loaded", so the
handle is present exactly in the `loaded` state. -/
abbrev Provider.wf (p : Provider) : Prop :=
  p.mathjax.isSome = true ↔ p.status = ProviderStatus.loaded

/-- Horizontal anchor: a numeric fraction of the width or a symbolic
keyword. -/
inductive XAnchor
  | num (v : ℚ)
  | left
  | center
  | right
deriving DecidableEq, Repr

/-- Vertical anchor: a numeric fraction of the height or a symbolic
keyword. -/
inductive YAnchor
  | num (v : ℚ)
  | top
  | center
  | bottom
  | baseline
deriving DecidableEq, Repr

/-- Caret position with optional anchor overrides (`GraphicsBox.position`). -/
structure TextPosition where
  sx : ℚ
  sy : ℚ
  x_anchor : Option XAnchor
  y_anchor : Option YAnchor
deriving DecidableEq, Repr

/-- A declared width/height constraint `{value, unit}`. -/
structure SizeConstraint where
  value : ℚ
  unit : String
deriving DecidableEq, Repr

/-- Which concrete `MathBox` subclass a box is (`TeXBox`, `MathMLBox`,
`AsciiBox`); it selects the markup-styling transform and the MathJax
conversion entry point. -/
inductive Dialect
  | tex
  | mathml
  | ascii
deriving DecidableEq, Repr

/-- State of a `MathBox`: the fields of the class together with the inherited
`GraphicsBox` fields that the subsystem reads (`position`, `angle`, the
width/height constraints, the default anchors and the font-size scale and
base size). -/
structure MathBox where
  font : String
  color : String
  text : String
  valign : ℚ
  position : TextPosition
  angle : Option ℚ
  width : Option SizeConstraint
  height : Option SizeConstraint
  x_anchor : XAnchor
  y_anchor : YAnchor
  font_size_scale : ℚ
  base_font_size : Option ℚ
  dialect : Dialect
deriving DecidableEq, Repr

/-- Modelled from the spec: the external utilities used by the subsystem that
are not part of the verified sources — `font_metrics` (a deterministic
function of the font string, `core/util/text`) and the colour conversions
`color2css`, `color2rgba`, `color2hexrgb` (`core/util/color`). -/
structure Env where
  font_metrics : String → FontMetrics
  color2css : String → ℚ → String
  color2rgba : String → ℕ × ℕ × ℕ
  color2hexrgb : String → String

/-- Is `pat` a substring of `cs` (helper for the JavaScript
`String.prototype.includes`)? -/
def listHasSub (pat : List Char) : List Char → Bool
  | [] => pat.isEmpty
  | c :: cs => pat.isPrefixOf (c :: cs) || listHasSub pat cs

/-- JavaScript `s.includes(pat)`. -/
def containsSub (s pat : String) : Bool :=
  listHasSub pat.data s.data

/-- JavaScript `s.indexOf(pat)` restricted to the found case: the least index
at which `pat` occurs in `s`, if any. -/
def indexOfSubstr (s pat : List Char) : Option ℕ :=
  (List.range (s.length + 1)).find? (fun i => pat.isPrefixOf (s.drop i))

/-- Modelled from the spec: `insert_text_on_position` (`core/util/string`,
outside the verified sources) splices `text` into `s` at character index
`pos`. -/
def insert_text_on_position (s : String) (pos : ℕ) (text : String) : String :=
  String.mk (s.data.take pos ++ text.data ++ s.data.drop pos)

/-- The attribute cleanup `.replace(/([A-z])/g, "")` of `svg_size`: remove
every character in the ASCII range `A`–`z` (which besides the letters also
covers `[ \ ] ^ _` and the backquote). -/
def stripAtoz (s : String) : String :=
  String.mk (s.data.filter (fun c => !('A' ≤ c && c ≤ 'z')))

/-- Digit list to natural number. -/
def digitsToNat (ds : List Char) : ℕ :=
  ds.foldl (fun a c => 10 * a + (c.toNat - 48)) 0

/-- Split a character list into its maximal digit prefix and the rest. -/
def takeDigits : List Char → List Char × List Char
  | [] => ([], [])
  | c :: cs =>
    if c.isDigit then
      let (d, r) := takeDigits cs
      (c :: d, r)
    else ([], c :: cs)

/-- Modelled from the spec: parsing the numeric prefix of a CSS length or a
string fed to JavaScript `parseFloat` — an optional sign, an integer part and
an optional decimal fraction.  Returns the value and the unparsed suffix, or
`none` when no number is present. -/
def parseDecPrefix (cs : List Char) : Option (ℚ × List Char) :=
  let (sign, cs1) :=
    match cs with
    | '-' :: r => ((-1 : ℚ), r)
    | '+' :: r => ((1 : ℚ), r)
    | _ => ((1 : ℚ), cs)
  let (ip, cs2) := takeDigits cs1
  match cs2 with
  | '.' :: cs3 =>
    let (fp, cs4) := takeDigits cs3
    if ip.isEmpty && fp.isEmpty then none
    else some (sign * ((digitsToNat ip : ℚ) + (digitsToNat fp : ℚ) / ((10 : ℚ) ^ fp.length)), cs4)
  | _ =>
    if ip.isEmpty then none
    else some (sign * (digitsToNat ip : ℚ), cs2)

/-- JavaScript `parseFloat`: value of the numeric prefix, `NaN` when there is
none.  (Exponent notation is not exercised by the subsystem.) -/
def jsParseFloat (s : String) : JSNum :=
  match parseDecPrefix s.trim.data with
  | some (v, _) => some v
  | none => none

/-- A parsed CSS length `{value, unit}`. -/
structure CSSLength where
  value : ℚ
  unit : String
deriving DecidableEq, Repr

/-- The length units recognised by the parsing utilities. -/
def css_units : List String := ["px", "em", "ex", "%", "pt", "rem"]

/-- Modelled from the spec: `parse_css_length` (`core/util/text`, outside the
verified sources) — "recognizes numeric-unit pairs (e.g. px, em, ex, %, pt)
and fails (returns null) on unparseable input"; a missing (undefined)
argument also yields null. -/
def parse_css_length : Option String → Option CSSLength
  | none => none
  | some s =>
    match parseDecPrefix s.trim.data with
    | none => none
    | some (v, rest) =>
      let u := String.mk rest
      if u ∈ css_units then some ⟨v, u⟩ else none

/-- Modelled from the spec: `parse_css_font_size` (`core/util/text`, outside
the verified sources) — parses a font-size string into a value/unit pair,
null on unparseable input. -/
def parse_css_font_size (s : String) : Option CSSLength :=
  match parseDecPrefix s.trim.data with
  | none => none
  | some (v, rest) =>
    let u := String.mk rest
    if u ∈ css_units then some ⟨v, u⟩ else none

/-- Does the group-plus-close of the opening-tag regex `<math(.*?[^?])?>` end
at position `j`: a character other than `?` at `j` followed by `>` at
`j + 1`? -/
def openTagEndAt (s : List Char) (j : ℕ) : Bool :=
  match s.get? j, s.get? (j + 1) with
  | some c, some d => c ≠ '?' && d = '>'
  | _, _ => false

/-- Match of `/<math(.*?[^?])?>/s` anchored at position `i`, in JavaScript
backtracking order: the greedy optional group is tried first with the lazy
`.*?` growing from empty (the group ends at the least admissible `j ≥ i + 5`),
and only if no such `j` exists does the empty-group alternative require `>`
directly at `i + 5`.  Returns the match length. -/
def matchOpenAt (s : List Char) (i : ℕ) : Option ℕ :=
  if "<math".data.isPrefixOf (s.drop i) then
    match (List.range' (i + 5) (s.length - (i + 5))).find? (openTagEndAt s) with
    | some j => some (j + 2 - i)
    | none => if s.get? (i + 5) = some '>' then some 6 else none
  else none

/-- Leftmost match of `/<math(.*?[^?])?>/s`: position and length. -/
def findOpenMatch (s : List Char) : Option (ℕ × ℕ) :=
  (List.range s.length).findSome? (fun i => (matchOpenAt s i).map (fun L => (i, L)))

/-- Least position `g ≥ start` holding `>`. -/
def firstGtFrom (s : List Char) (start : ℕ) : Option ℕ :=
  (List.range' start (s.length - start)).find? (fun g => s.get? g = some '>')

/-- Are the `a` characters of `s` starting at `start` all different from
`>` (the lazy `[^>]*?` segment of the closing-tag regex)? -/
def segNoGt (s : List Char) (start a : ℕ) : Bool :=
  ((s.drop start).take a).all (fun c => c ≠ '>')

/-- Match of `/<\/[^>]*?math.*?>/s` anchored at position `i`, in JavaScript
backtracking order: `</`, then the least `a` such that `a` non-`>` characters
are followed by `math` with some later `>`, then the lazy `.*?` runs to the
first `>`.  Returns the match length. -/
def matchCloseAt (s : List Char) (i : ℕ) : Option ℕ :=
  if s.get? i = some '<' && s.get? (i + 1) = some '/' then
    match (List.range (s.length + 1)).find? (fun a =>
        segNoGt s (i + 2) a && "math".data.isPrefixOf (s.drop (i + 2 + a))
          && (firstGtFrom s (i + 6 + a)).isSome) with
    | some a =>
      match firstGtFrom s (i + 6 + a) with
      | some g => some (g + 1 - i)
      | none => none
    | none => none
  else none

/-- Leftmost match of `/<\/[^>]*?math.*?>/s`: position and length. -/
def findCloseMatch (s : List Char) : Option (ℕ × ℕ) :=
  (List.range s.length).findSome? (fun i => (matchCloseAt s i).map (fun L => (i, L)))

/-- The `<mstyle …​>` opening tag spliced in by `MathMLBox.styled_formula`,
for a given resolved hex colour and boldness. -/
def mstyle_open (hexcolor : String) (bold : Bool) : String :=
  "<mstyle displaystyle=\"true\" mathcolor=\"" ++ hexcolor ++ "\" "
    ++ (if bold then "mathvariant=\"bold\"" else "") ++ ">"

/-- `MathMLBox.styled_formula` (source lines 237–254): trim the raw text,
locate the opening `math` tag with `/<math(.*?[^?])?>/s` (returning the
trimmed text when absent), splice the `<mstyle>` tag right after the end of
the matched substring's first occurrence, then locate the closing tag with
`/<\/[^>]*?math.*?>/s` (returning the trimmed text when absent) and splice
`</mstyle>` right before its first occurrence. -/
def mathml_styled_formula (hexcolor : String) (bold : Bool) (text : String) : String :=
  let styled := text.trim
  let s := styled.data
  match findOpenMatch s with
  | none => text.trim
  | some (p, L) =>
    let m := (s.drop p).take L
    let idx := (indexOfSubstr s m).getD 0
    let styled2 := insert_text_on_position styled (idx + L) (mstyle_open hexcolor bold)
    let s2 := styled2.data
    match findCloseMatch s2 with
    | none => text.trim
    | some (p2, L2) =>
      let m2 := (s2.drop p2).take L2
      let idx2 := (indexOfSubstr s2 m2).getD 0
      insert_text_on_position styled2 idx2 "</mstyle>"

/-- `TeXBox.styled_formula` (source lines 217–221): wrap the raw text in a
`\color[RGB]` command, bolding it when the font string contains `bold`. -/
def tex_styled_formula (env : Env) (box : MathBox) : String :=
  let rgb := env.color2rgba box.color
  "\\color[RGB]\x7b" ++ toString rgb.1 ++ ", " ++ toString rgb.2.1 ++ ", "
      ++ toString rgb.2.2 ++ "\x7d "
    ++ (if containsSub box.font "bold" then "\\bf\x7b" ++ box.text ++ "\x7d" else box.text)

/-- `AsciiBox.styled_formula` (source lines 270–275): prefix the raw text with
`\text `, then wrap as in the TeX case. -/
def ascii_styled_formula (env : Env) (box : MathBox) : String :=
  let rgb := env.color2rgba box.color
  let ascii := "\\text " ++ box.text
  "\\color[RGB]\x7b" ++ toString rgb.1 ++ ", " ++ toString rgb.2.1 ++ ", "
      ++ toString rgb.2.2 ++ "\x7d "
    ++ (if containsSub box.font "bold" then "\\bf\x7b" ++ ascii ++ "\x7d" else ascii)

/-- `styled_formula`, dispatched on the concrete subclass. -/
def styled_formula (env : Env) (box : MathBox) : String :=
  match box.dialect with
  | .tex => tex_styled_formula env box
  | .mathml => mathml_styled_formula (env.color2hexrgb box.color) (containsSub box.font "bold") box.text
  | .ascii => ascii_styled_formula env box

/-- `to_svg` of the three concrete subclasses (source lines 223–233, 256–266,
277–287): throw `"Please load MathJax before calling to_svg()"` when the
provider handle is absent, otherwise call the dialect's conversion entry
point with the styled formula and the unit hints `em = base_font_size`,
`ex = font_metrics(font).x_height`. -/
def to_svg (env : Env) (provider : Provider) (box : MathBox) : Except String SvgEl :=
  match provider.mathjax with
  | none => .error "Please load MathJax before calling to_svg()"
  | some hdl =>
    match box.dialect with
    | .tex => .ok (hdl.tex2svg (styled_formula env box) box.base_font_size
        (env.font_metrics box.font).x_height)
    | .mathml => .ok (hdl.mathml2svg (styled_formula env box) box.base_font_size
        (env.font_metrics box.font).x_height)
    | .ascii => .ok (hdl.tex2svg (styled_formula env box) box.base_font_size
        (env.font_metrics box.font).x_height)

/-- Overwrite-or-insert into the rules map (`Map.prototype.set`); lookups see
the newest binding of a key. -/
def rules_set (m : List (String × String)) (k v : String) : List (String × String) :=
  (k, v) :: m.filter (fun p => p.1 ≠ k)

/-- Lookup in the rules map (`Map.prototype.get`), `none` for undefined. -/
def rules_get (m : List (String × String)) (k : String) : Option String :=
  (m.find? (fun p => p.1 = k)).map (fun p => p.2)

/-- The rules-map construction of `svg_size` (source lines 145–151): split the
style attribute on `;`, split each property on `:`, skip properties whose
rule part is the empty string (falsy), and store `rule.trim() ↦ value.trim()`.
A non-empty property without a `:` makes the JavaScript evaluate
`undefined.trim()`, i.e. throw — modelled by `Except.error`. -/
def rulesOfStyle (style : String) : Except Unit (List (String × String)) :=
  (style.splitOn ";").foldlM (fun m property =>
    let parts := property.splitOn ":"
    let rule := parts.headD ""
    if rule = "" then .ok m
    else
      match parts[1]? with
      | some v => .ok (rules_set m rule.trim v.trim)
      | none => .error ()) []

/-- `MathBox.svg_size` (source lines 125–165): placeholder `13 × 13` when the
provider handle is absent; otherwise read the `height`/`width` attributes of
the dialect's SVG element (strip `[A-z]` characters, `parseFloat`, default
`"0"`), update `this.valign` from a `vertical-align` style rule when its
length parses with unit `ex` (times x-height) or `px` (identity), and return
the ex-measured size times the font's x-height.  The second component of the
result is the value of `this.valign` after the call. -/
def svg_size (env : Env) (provider : Provider) (box : MathBox) :
    Except Unit ((JSNum × JSNum) × ℚ) :=
  match provider.mathjax with
  | none => .ok ((some 13, some 13), box.valign)
  | some _ =>
    match to_svg env provider box with
    | .error _ => .error ()
    | .ok el =>
      let fm := env.font_metrics box.font
      let heightEx := jsParseFloat ((el.height.map stripAtoz).getD "0")
      let widthEx := jsParseFloat ((el.width.map stripAtoz).getD "0")
      match el.style with
      | none =>
        .ok ((jsMul (some fm.x_height) widthEx, jsMul (some fm.x_height) heightEx), box.valign)
      | some styleStr =>
        match rulesOfStyle styleStr with
        | .error e => .error e
        | .ok rules =>
          let v_align := parse_css_length (rules_get rules "vertical-align")
          let valign' :=
            match v_align with
            | some va =>
              if va.unit = "ex" then va.value * fm.x_height
              else if va.unit = "px" then va.value
              else box.valign
            | none => box.valign
          .ok ((jsMul (some fm.x_height) widthEx, jsMul (some fm.x_height) heightEx), valign')

/-- The percentage scale of a declared size constraint
(`this.width?.unit == "%" ? this.width.value : 1`). -/
def pct_scale (c : Option SizeConstraint) : ℚ :=
  match c with
  | some cc => if cc.unit = "%" then cc.value else 1
  | none => 1

/-- `MathBox._size` (source lines 167–180): placeholder `13 × 13` when the
provider handle is absent; otherwise take the `svg_size`, clamp the height to
at least `font_metrics(font).height`, and scale each axis by its declared
percentage constraint.  The second component is `this.valign` after the
call. -/
def _size (env : Env) (provider : Provider) (box : MathBox) :
    Except Unit ((JSNum × JSNum) × ℚ) :=
  match provider.mathjax with
  | none => .ok ((some 13, some 13), box.valign)
  | some _ =>
    let fm := env.font_metrics box.font
    match svg_size env provider box with
    | .error e => .error e
    | .ok ((width, height), valign') =>
      let height2 := jsMax height (some fm.height)
      let w_scale := pct_scale box.width
      let h_scale := pct_scale box.height
      .ok ((jsMul width (some w_scale), jsMul height2 (some h_scale)), valign')

/-- The horizontal offset resolved from the x-anchor (the first immediately
invoked closure of `_computed_position`, source lines 88–98). -/
def x_anchor_offset (x_anchor : XAnchor) (width : JSNum) : JSNum :=
  match x_anchor with
  | .num v => jsMul (some v) width
  | .left => some 0
  | .center => jsMul (some (1 / 2)) width
  | .right => width

/-- The vertical offset resolved from the y-anchor (the second immediately
invoked closure of `_computed_position`, source lines 100–120): `top` and
`bottom` are baseline-aware when the font's line height exceeds the box
height; `center` and `baseline` are both the geometric midpoint. -/
def y_anchor_offset (y_anchor : YAnchor) (height : JSNum) (metrics : FontMetrics)
    (valign : ℚ) : JSNum :=
  match y_anchor with
  | .num v => jsMul (some v) height
  | .top =>
    if jsGtQ metrics.height height then
      jsSub (jsSub height (some (-valign - metrics.descent))) (some metrics.height)
    else some 0
  | .center => jsMul (some (1 / 2)) height
  | .bottom =>
    if jsGtQ metrics.height height then
      jsAdd (jsAdd height (some metrics.descent)) (some valign)
    else height
  | .baseline => jsMul (some (1 / 2)) height

/-- `MathBox._computed_position` (source lines 83–123): take the size (whose
computation may update `this.valign`), resolve the anchors (explicit override
else the box defaults), and subtract the anchor offsets from the caret.  The
second component is `this.valign` after the call. -/
def _computed_position (env : Env) (provider : Provider) (box : MathBox) :
    Except Unit ((JSNum × JSNum) × ℚ) :=
  match _size env provider box with
  | .error e => .error e
  | .ok ((width, height), valign') =>
    let pos := box.position
    let xa := pos.x_anchor.getD box.x_anchor
    let ya := pos.y_anchor.getD box.y_anchor
    let metrics := env.font_metrics box.font
    let x := jsSub (some pos.sx) (x_anchor_offset xa width)
    let y := jsSub (some pos.sy) (y_anchor_offset ya height metrics valign')
    .ok ((x, y), valign')

/-- The visual-style payload consumed by the `visuals` setter
(`visuals.Text["Values"]`), restricted to the fields the setter reads. -/
structure VisualStyle where
  color : String
  alpha : ℚ
  font_style : String
  font_size : String
  font : String
  align : XAnchor
  baseline : String
deriving DecidableEq, Repr

/-- Rendering of a rational into the font-size string (abstracts JavaScript
template-literal number formatting; integral values print without a
denominator, as JavaScript prints integral floats). -/
def renderRat (q : ℚ) : String :=
  if q.den = 1 then toString q.num else toString q.num ++ "/" ++ toString q.den

/-- JavaScript truthiness of a possibly-undefined number (`0`, `NaN` and
`undefined` are falsy). -/
def jsTruthy : Option ℚ → Bool
  | some b => decide (b ≠ 0)
  | none => false

/-- The font-size conversion of the `visuals` setter (source lines 56–62):
scale the parsed value by `font_size_scale`, and when the unit is `em` and
the base font size is truthy, multiply by the base size and re-express in
`px`. -/
def convert_font_size (res : CSSLength) (scale : ℚ) (base : Option ℚ) : CSSLength :=
  let value := res.value * scale
  if res.unit = "em" && jsTruthy base then ⟨value * base.getD 0, "px"⟩
  else ⟨value, res.unit⟩

/-- The `visuals` setter of `MathBox` (source lines 46–81): derive the
resolved `font` string (style, converted size, face), the resolved `color`,
and the default anchors from the alignment and baseline keywords. -/
def set_visuals (env : Env) (box : MathBox) (v : VisualStyle) : MathBox :=
  let res := parse_css_font_size v.font_size
  let size_str :=
    match res with
    | some r =>
      let r' := convert_font_size r box.font_size_scale box.base_font_size
      renderRat r'.value ++ r'.unit
    | none => v.font_size
  let font := v.font_style ++ " " ++ size_str ++ " " ++ v.font
  let y :=
    match v.baseline with
    | "top" => YAnchor.top
    | "middle" => YAnchor.center
    | "bottom" => YAnchor.bottom
    | _ => YAnchor.baseline
  { box with
    font := font
    color := env.color2css v.color v.alpha
    x_anchor := v.align
    y_anchor := y }

/-- What a call to `load_provider` does with respect to the provider fetch:
start (and await) a new fetch, await an already in-flight fetch, or return
immediately without touching it. -/
inductive LoadAction
  | triggers_fetch
  | awaits_inflight
  | noop
deriving DecidableEq, Repr

/-- `MathBox.load_provider` (source lines 32–35): `await this.provider.fetch()`
only when the status is `not_started`; in every other state the body is
empty and the method returns immediately. -/
def load_provider_action : ProviderStatus → LoadAction
  | .not_started => .triggers_fetch
  | _ => .noop

/-- Modelled from the spec: the load behaviour the specification claims —
"triggers the fetch if `not_started`, returns/awaits the same outcome if
`loading`, is a no-op if `loaded` or `failed`". -/
def claimed_load_action : ProviderStatus → LoadAction
  | .not_started => .triggers_fetch
  | .loading => .awaits_inflight
  | .loaded => .noop
  | .failed => .noop

/-- The drawing-surface operations issued by `paint` (`Context2d`). -/
inductive CanvasOp
  | save
  | restore
  | translate (x y : JSNum)
  | rotate (a : ℚ)
  | setFillStyle (s : String)
  | setFont (s : String)
  | setTextAlign (s : String)
  | setTextBaseline (s : String)
  | fillText (t : String) (x y : JSNum)
  | drawMathJax
deriving DecidableEq, Repr

/-- Behaviour of the external compositor inside the `try` block of `paint`:
succeed, throw in the `MathJaxCanvas` constructor, or throw in `draw()`
(after `ctx.translate(x, y)` has already run). -/
inductive PaintOutcome
  | ok
  | ctor_throws
  | draw_throws
deriving DecidableEq, Repr

/-- The fallback drawing of the `catch` branch of `paint` (source lines
199–206): plain left-aligned alphabetic-baseline text in the resolved font
and colour at `(x, y + ascent)`. -/
def fallback_ops (env : Env) (box : MathBox) (x y : JSNum) : List CanvasOp :=
  [.setFillStyle box.color, .setFont box.font, .setTextAlign "left",
   .setTextBaseline "alphabetic",
   .fillText box.text x (jsAdd y (some (env.font_metrics box.font).ascent))]

/-- `MathBox.paint` (source lines 182–209): save the surface state, compute
the position (this runs `_size`/`svg_size` and is *before* the `try` block —
an exception it raises propagates out of `paint` with the save unbalanced,
modelled by `Except.error` carrying the operations issued so far), apply the
caret-pivoted rotation when a non-zero angle is set, then try to composite
the vector graphic and on any exception fall back to plain text; finally
restore.  The result is the list of surface operations. -/
def paint (env : Env) (provider : Provider) (box : MathBox) (outcome : PaintOutcome) :
    Except (List CanvasOp) (List CanvasOp) :=
  match _computed_position env provider box with
  | .error _ => .error [.save]
  | .ok ((x, y), _) =>
    let rot : List CanvasOp :=
      match box.angle with
      | some a =>
        if a ≠ 0 then
          [.translate (some box.position.sx) (some box.position.sy), .rotate a,
           .translate (some (-box.position.sx)) (some (-box.position.sy))]
        else []
      | none => []
    let t1 := [CanvasOp.save] ++ rot
    let attempt : Except (List CanvasOp) (List CanvasOp) :=
      match to_svg env provider box with
      | .error _ => .error []
      | .ok _ =>
        match svg_size env provider box with
        | .error _ => .error []
        | .ok _ =>
          match outcome with
          | .ctor_throws => .error []
          | .draw_throws => .error [.translate x y]
          | .ok => .ok [.translate x y, .drawMathJax]
    match attempt with
    | .ok ops => .ok (t1 ++ ops ++ [.restore])
    | .error partialOps => .ok (t1 ++ partialOps ++ fallback_ops env box x y ++ [.restore])

/-- The hypothesis of the valign frame property: the style attribute is
absent, or it carries no `vertical-align` rule whose length parses with the
unit `ex` or `px` (a throwing rules-map construction never reaches the
assignment either). -/
def keeps_valign (style : Option String) : Bool :=
  match style with
  | none => true
  | some s =>
    match rulesOfStyle s with
    | .error _ => true
    | .ok rules =>
      match parse_css_length (rules_get rules "vertical-align") with
      | none => true
      | some va => va.unit ≠ "ex" && va.unit ≠ "px"

/-- Sample font metrics used for concrete evaluations: ascent 10, descent 3,
line height 13, x-height 6. -/
def fmSample : FontMetrics := ⟨10, 3, 13, 6⟩

/-- Sample environment with constant utilities. -/
def envSample : Env :=
  { font_metrics := fun _ => fmSample
    color2css := fun c _ => c
    color2rgba := fun _ => (255, 0, 0)
    color2hexrgb := fun _ => "#ff0000" }

/-- Sample box: plain TeX dialect, no angle, no constraints, default
anchors. -/
def boxPlain : MathBox :=
  { font := "normal 12px serif"
    color := "black"
    text := "x+y"
    valign := 0
    position := ⟨0, 0, none, none⟩
    angle := none
    width := none
    height := none
    x_anchor := XAnchor.left
    y_anchor := YAnchor.baseline
    font_size_scale := 1
    base_font_size := some 13
    dialect := Dialect.tex }

/-- SVG element declaring `1ex × 2ex` with no style attribute. -/
def elSmall : SvgEl := ⟨some "1ex", some "2ex", none⟩

/-- Handle whose conversions always return `elSmall`. -/
def hdlSmall : MathJaxHandle := ⟨fun _ _ _ => elSmall, fun _ _ _ => elSmall⟩

/-- Loaded provider with the `elSmall` handle. -/
def providerSmall : Provider := ⟨ProviderStatus.loaded, some hdlSmall⟩

/-- Box with a declared percentage height constraint of value 2. -/
def boxPct : MathBox := { boxPlain with height := some ⟨2, "%"⟩ }

/-- SVG element whose style attribute `"x"` is a declaration without a colon:
building the rules map evaluates `undefined.trim()` and throws. -/
def elBadStyle : SvgEl := ⟨some "1ex", some "2ex", some "x"⟩

/-- Handle whose conversions return the malformed-style element. -/
def hdlBad : MathJaxHandle := ⟨fun _ _ _ => elBadStyle, fun _ _ _ => elBadStyle⟩

/-- Loaded provider with the malformed-style handle. -/
def providerBad : Provider := ⟨ProviderStatus.loaded, some hdlBad⟩

/-- Unloaded provider (never started, no handle). -/
def providerUnloaded : Provider := ⟨ProviderStatus.not_started, none⟩

/-- SVG element carrying a `vertical-align` rule whose length parses with the
unit `pt` — neither `ex` nor `px`. -/
def elPt : SvgEl := ⟨some "1ex", some "2ex", some "vertical-align: 2pt"⟩

/-- Handle whose conversions return `elPt`. -/
def hdlPt : MathJaxHandle := ⟨fun _ _ _ => elPt, fun _ _ _ => elPt⟩

/-- Loaded provider with the `elPt` handle. -/
def providerPt : Provider := ⟨ProviderStatus.loaded, some hdlPt⟩

/-- Box with a non-zero `valign` inherited from an earlier computation. -/
def boxV7 : MathBox := { boxPlain with valign := 7 }

/-- Visual style carrying the em-unit font size `3em`. -/
def vsEm : VisualStyle := ⟨"black", 1, "normal", "3em", "serif", XAnchor.left, "alphabetic"⟩

/-- Box with a font-size scale factor of 2 and base font size 10. -/
def boxScale2 : MathBox := { boxPlain with font_size_scale := 2, base_font_size := some 10 }

/-- C1: evaluation of `paint` at the failing input.  With the provider loaded
and the conversion returning an SVG element whose style attribute is the
colon-less declaration `"x"`, `paint` throws (the exception arises in
`svg_size` during the `_computed_position()` call at line 187, which is
*before* the `try` block): the call ends in `Except.error` after issuing only
the `ctx.save()`, so no fallback text is drawn and the saved surface state is
never restored — contradicting "paint(ctx) never throws … and the surface
state saved at entry is restored exactly once on every exit path". -/
theorem C1_paint_throws_on_malformed_style :
    Provider.wf providerBad
    ∧ paint envSample providerBad boxPlain PaintOutcome.ok = .error [CanvasOp.save]
    ∧ [CanvasOp.save].count CanvasOp.restore = 0 :=
  ⟨by decide, by with_unfolding_all rfl, by decide⟩

/-- C2: whenever the provider is well-formed and its status is `not_started`
or `failed` (hence the MathJax handle is absent), `_size` returns exactly the
placeholder `{width: 13, height: 13}` and leaves `valign` unchanged, for
every box — independent of formula text, font, colour and declared
width/height constraints. -/
theorem C2_size_placeholder_when_unloaded (env : Env) (provider : Provider) (box : MathBox)
    (hwf : provider.wf)
    (hs : provider.status = ProviderStatus.not_started ∨ provider.status = ProviderStatus.failed) :
    _size env provider box = .ok ((some 13, some 13), box.valign) := by
  have hm : provider.mathjax = none := by
    cases hmm : provider.mathjax with
    | none => rfl
    | some h =>
      exfalso
      have hl : provider.status = ProviderStatus.loaded := hwf.mp (by simp [hmm])
      rcases hs with h' | h' <;> rw [hl] at h' <;> exact ProviderStatus.noConfusion h'
  unfold _size
  rw [hm]

/-- Witness for C2 at a concrete never-started provider and box. -/
theorem C2_witness :
    Provider.wf providerUnloaded
    ∧ _size envSample providerUnloaded boxPlain = .ok ((some 13, some 13), boxPlain.valign) :=
  ⟨by decide,
   C2_size_placeholder_when_unloaded envSample providerUnloaded boxPlain (by decide) (Or.inl rfl)⟩

/-- C3 counterexample: with the provider loaded, a vector graphic measuring
`1ex × 2ex` (so a measured height of `6 < 13 = font_metrics.height`) and a
declared percentage height constraint of value `2`, `_size()` returns height
`26`, not `font_metrics(font).height = 13` — the claim omits the final
percentage scaling of lines 176–179. -/
theorem C3_counterexample :
    Provider.wf providerSmall
    ∧ svg_size envSample providerSmall boxPct = .ok ((some 12, some 6), boxPct.valign)
    ∧ (6 : ℚ) < (envSample.font_metrics boxPct.font).height
    ∧ _size envSample providerSmall boxPct = .ok ((some 12, some 26), boxPct.valign)
    ∧ (some (26 : ℚ) : Option ℚ) ≠ some ((envSample.font_metrics boxPct.font).height) :=
  ⟨by decide, by with_unfolding_all rfl, by with_unfolding_all decide,
   by with_unfolding_all rfl, by with_unfolding_all decide⟩

/-- C3 as amended: with the provider loaded, whenever the measured height is
below the font's line height, `_size()` returns height equal to
`font_metrics(font).height` multiplied by the percentage height scale — which
is `font_metrics(font).height` itself exactly when no `%`-unit height
constraint is declared (`pct_scale = 1`). -/
theorem C3_height_clamped_to_scaled_line_height (env : Env) (provider : Provider)
    (box : MathBox) (w : JSNum) (hv va : ℚ)
    (hwf : provider.wf) (hst : provider.status = ProviderStatus.loaded)
    (hsz : svg_size env provider box = .ok ((w, some hv), va))
    (hlt : hv < (env.font_metrics box.font).height) :
    _size env provider box
      = .ok ((jsMul w (some (pct_scale box.width)),
              some ((env.font_metrics box.font).height * pct_scale box.height)), va) := by
  obtain ⟨hdl, hm⟩ := Option.isSome_iff_exists.mp (hwf.mpr hst)
  unfold _size
  rw [hm]
  dsimp only
  rw [hsz]
  dsimp only
  simp [jsMax, jsMul, max_eq_right hlt.le]

/-- Witness for C3's amended theorem at a box with no height constraint. -/
theorem C3_witness :
    svg_size envSample providerSmall boxPlain = .ok ((some 12, some 6), boxPlain.valign)
    ∧ (6 : ℚ) < (envSample.font_metrics boxPlain.font).height
    ∧ _size envSample providerSmall boxPlain
        = .ok ((jsMul (some 12) (some (pct_scale boxPlain.width)),
                some ((envSample.font_metrics boxPlain.font).height * pct_scale boxPlain.height)),
               boxPlain.valign) :=
  ⟨by with_unfolding_all rfl, by with_unfolding_all decide,
   C3_height_clamped_to_scaled_line_height envSample providerSmall boxPlain (some 12) 6
     boxPlain.valign (by decide) rfl (by with_unfolding_all rfl) (by with_unfolding_all decide)⟩

/-- C4: in `_computed_position`, with symbolic y-anchor `top` the vertical
offset subtracted from `sy` is `height - (-valign - descent) - metrics.height`
when the font's line height exceeds the box height and `0` otherwise; with
`bottom` it is `height + descent + valign` on overflow and the full height
otherwise; and the y-coordinate of `_computed_position` is exactly `sy` minus
this resolved offset (computed with the post-`_size` valign). -/
theorem C4_vertical_anchor_offsets :
    (∀ (h v : ℚ) (m : FontMetrics),
        (h < m.height →
          y_anchor_offset YAnchor.top (some h) m v = some (h - (-v - m.descent) - m.height))
      ∧ (¬ h < m.height → y_anchor_offset YAnchor.top (some h) m v = some 0)
      ∧ (h < m.height →
          y_anchor_offset YAnchor.bottom (some h) m v = some (h + m.descent + v))
      ∧ (¬ h < m.height → y_anchor_offset YAnchor.bottom (some h) m v = some h))
    ∧ (∀ (env : Env) (provider : Provider) (box : MathBox) (w h : JSNum) (va : ℚ),
        _size env provider box = .ok ((w, h), va) →
        _computed_position env provider box
          = .ok ((jsSub (some box.position.sx)
                    (x_anchor_offset (box.position.x_anchor.getD box.x_anchor) w),
                  jsSub (some box.position.sy)
                    (y_anchor_offset (box.position.y_anchor.getD box.y_anchor) h
                      (env.font_metrics box.font) va)), va)) := by
  constructor
  · intro h v m
    refine ⟨?_, ?_, ?_, ?_⟩
    · intro hlt
      simp [y_anchor_offset, jsGtQ, hlt, jsSub]
    · intro hlt
      simp [y_anchor_offset, jsGtQ, hlt]
    · intro hlt
      simp [y_anchor_offset, jsGtQ, hlt, jsAdd]
    · intro hlt
      simp [y_anchor_offset, jsGtQ, hlt]
  · intro env provider box w h va hsz
    unfold _computed_position
    rw [hsz]

/-- Witness for C4, including the spec's numeric instance: `height = 20`,
line height `30`, `valign = 2`, descent `4` give offset `-4` for `top` and
`26` for `bottom`; without overflow the offsets are `0` and the full
height. -/
theorem C4_witness :
    y_anchor_offset YAnchor.top (some 20) ⟨25, 4, 30, 6⟩ 2 = some (-4)
    ∧ y_anchor_offset YAnchor.bottom (some 20) ⟨25, 4, 30, 6⟩ 2 = some 26
    ∧ y_anchor_offset YAnchor.top (some 40) ⟨25, 4, 30, 6⟩ 2 = some 0
    ∧ y_anchor_offset YAnchor.bottom (some 40) ⟨25, 4, 30, 6⟩ 2 = some 40
    ∧ _computed_position envSample providerSmall boxPlain
        = .ok ((jsSub (some boxPlain.position.sx)
                  (x_anchor_offset (boxPlain.position.x_anchor.getD boxPlain.x_anchor) (some 12)),
                jsSub (some boxPlain.position.sy)
                  (y_anchor_offset (boxPlain.position.y_anchor.getD boxPlain.y_anchor) (some 13)
                    (envSample.font_metrics boxPlain.font) boxPlain.valign)),
               boxPlain.valign) := by
  have H := C4_vertical_anchor_offsets
  refine ⟨?_, ?_, ?_, ?_, ?_⟩
  · have h := (H.1 20 2 ⟨25, 4, 30, 6⟩).1 (by with_unfolding_all decide)
    rw [h]
    with_unfolding_all decide
  · have h := (H.1 20 2 ⟨25, 4, 30, 6⟩).2.2.1 (by with_unfolding_all decide)
    rw [h]
    with_unfolding_all decide
  · exact (H.1 40 2 ⟨25, 4, 30, 6⟩).2.1 (by with_unfolding_all decide)
  · exact (H.1 40 2 ⟨25, 4, 30, 6⟩).2.2.2 (by with_unfolding_all decide)
  · exact H.2 envSample providerSmall boxPlain (some 12) (some 13) boxPlain.valign
      (by with_unfolding_all rfl)

/-- C5 counterexample: in the `loading` state, `load_provider` does not await
the in-flight fetch as the claim states — its body is empty for every status
other than `not_started`, so it returns immediately. -/
theorem C5_counterexample :
    ¬ (load_provider_action ProviderStatus.loading
        = claimed_load_action ProviderStatus.loading) := by
  decide

/-- C5 as amended: `load_provider` triggers (and awaits) the fetch when the
status is `not_started`, and is a no-op — returning immediately, without
awaiting any in-flight fetch — when the status is `loading`, `loaded` or
`failed`. -/
theorem C5_load_provider_actions :
    load_provider_action ProviderStatus.not_started = LoadAction.triggers_fetch
    ∧ load_provider_action ProviderStatus.loading = LoadAction.noop
    ∧ load_provider_action ProviderStatus.loaded = LoadAction.noop
    ∧ load_provider_action ProviderStatus.failed = LoadAction.noop :=
  ⟨rfl, rfl, rfl, rfl⟩

/-- C6 counterexample: with a font-size scale factor of `2`, base size `10`
and font-size string `3em`, the derived font size is `60px`, not
`value(S) * B = 30px` — the claim omits the `font_size_scale` factor applied
at line 57. -/
theorem C6_counterexample :
    (set_visuals envSample boxScale2 vsEm).font = "normal 60px serif"
    ∧ (set_visuals envSample boxScale2 vsEm).font
        ≠ "normal " ++ renderRat ((3 : ℚ) * 10) ++ "px" ++ " serif" :=
  ⟨by with_unfolding_all rfl, by with_unfolding_all decide⟩

/-- C6 as amended: for a font-size string parsing as `value em` and a defined
(truthy) base size `B`, the derived font size is
`value * font_size_scale * B` pixels; under the default scale factor `1` this
is exactly `value(S) * B` pixels, as the claim states. -/
theorem C6_em_to_px_conversion (env : Env) (box : MathBox) (v : VisualStyle) (val B : ℚ)
    (hp : parse_css_font_size v.font_size = some ⟨val, "em"⟩)
    (hb : box.base_font_size = some B) (hB : B ≠ 0) :
    (set_visuals env box v).font
      = v.font_style ++ " " ++ (renderRat (val * box.font_size_scale * B) ++ "px") ++ " " ++ v.font
    ∧ (box.font_size_scale = 1 →
        (set_visuals env box v).font
          = v.font_style ++ " " ++ (renderRat (val * B) ++ "px") ++ " " ++ v.font) := by
  have hfont : (set_visuals env box v).font
      = v.font_style ++ " " ++ (renderRat (val * box.font_size_scale * B) ++ "px") ++ " " ++ v.font := by
    unfold set_visuals
    rw [hp]
    dsimp only
    unfold convert_font_size
    rw [hb]
    simp [jsTruthy, hB]
  refine ⟨hfont, fun h1 => ?_⟩
  rw [hfont, h1, mul_one]

/-- Witness for C6's amended theorem: `3em` at base size `13` and the default
scale `1` derives `39px = 3 * 13` pixels. -/
theorem C6_witness :
    parse_css_font_size vsEm.font_size = some ⟨3, "em"⟩
    ∧ boxPlain.base_font_size = some 13
    ∧ (set_visuals envSample boxPlain vsEm).font
        = vsEm.font_style ++ " " ++ (renderRat ((3 : ℚ) * 13) ++ "px") ++ " " ++ vsEm.font :=
  ⟨by with_unfolding_all rfl, rfl,
   (C6_em_to_px_conversion envSample boxPlain vsEm 3 13 (by with_unfolding_all rfl) rfl
     (by norm_num)).2 rfl⟩

/-- C7: evaluation of `MathMLBox.styled_formula` at the claim's well-formed
input `"<math>X</math>"` with resolved colour `#ff0000` and a non-bold font.
The opening-tag regex `/<math(.*?[^?])?>/s` matches the *entire* string (the
lazy group grows until the final `>`), so the `<mstyle>` tag is appended
after `</math>` instead of immediately after the opening tag: the result is
`<math>X</mstyle></math><mstyle …​>` and does not contain `<math><mstyle`. -/
theorem C7_mathml_styling_misplaced :
    mathml_styled_formula "#ff0000" false "<math>X</math>"
      = "<math>X</mstyle></math><mstyle displaystyle=\"true\" mathcolor=\"#ff0000\" >"
    ∧ containsSub
        (mathml_styled_formula "#ff0000" false "<math>X</math>") "<math><mstyle" = false :=
  ⟨by with_unfolding_all rfl, by with_unfolding_all rfl⟩

/-- C8 counterexample: `to_svg` is not the only failure-surfacing path — with
the provider loaded and an SVG element carrying the malformed style attribute
`"x"`, `to_svg` succeeds but `_size()` itself throws (the rules-map
construction evaluates `undefined.trim()`). -/
theorem C8_counterexample :
    Provider.wf providerBad
    ∧ _size envSample providerBad boxPlain = .error ()
    ∧ to_svg envSample providerBad boxPlain = .ok elBadStyle :=
  ⟨by decide, by with_unfolding_all rfl, by with_unfolding_all rfl⟩

/-- C8 as amended: for every dialect variant, `to_svg()` raises exactly the
explicit error `"Please load MathJax before calling to_svg()"` when the
provider handle is absent, and succeeds (neither retrying nor waiting) when
the handle is present; it is the only *deliberate* failure surfaced to the
caller, though malformed style metadata can additionally make the sizing path
throw. -/
theorem C8_to_svg_error_iff_unloaded (env : Env) (provider : Provider) (box : MathBox) :
    (provider.mathjax = none →
      to_svg env provider box = .error "Please load MathJax before calling to_svg()")
    ∧ (∀ hdl, provider.mathjax = some hdl → ∃ el, to_svg env provider box = .ok el) := by
  constructor
  · intro h
    unfold to_svg
    rw [h]
  · intro hdl h
    unfold to_svg
    rw [h]
    cases box.dialect <;> exact ⟨_, rfl⟩

/-- Witness for C8's amended theorem at a never-started provider. -/
theorem C8_witness :
    providerUnloaded.mathjax = none
    ∧ to_svg envSample providerUnloaded boxPlain
        = .error "Please load MathJax before calling to_svg()" :=
  ⟨rfl, (C8_to_svg_error_iff_unloaded envSample providerUnloaded boxPlain).1 rfl⟩

/-- C9: `_computed_position` with symbolic y-anchor `baseline` returns
exactly the same result as with `center` — both resolve the vertical offset
to `0.5 * height` — whether the anchor comes from the position override or
from the box default. -/
theorem C9_baseline_equals_center (env : Env) (provider : Provider) (box : MathBox) :
    _computed_position env provider
        { box with position := { box.position with y_anchor := some YAnchor.baseline } }
      = _computed_position env provider
        { box with position := { box.position with y_anchor := some YAnchor.center } }
    ∧ _computed_position env provider
        { box with y_anchor := YAnchor.baseline,
                   position := { box.position with y_anchor := none } }
      = _computed_position env provider
        { box with y_anchor := YAnchor.center,
                   position := { box.position with y_anchor := none } } :=
  ⟨rfl, rfl⟩

/-- C10: if the SVG element's style attribute is absent or carries no
`vertical-align` rule whose length parses with unit `ex` or `px`, a
successful `svg_size` leaves `valign` unchanged — a value derived from an
earlier computation persists rather than being reset. -/
theorem C10_valign_unchanged (env : Env) (provider : Provider) (box : MathBox) (el : SvgEl)
    (sz : JSNum × JSNum) (va : ℚ)
    (hel : to_svg env provider box = .ok el)
    (hkeep : keeps_valign el.style = true)
    (hsz : svg_size env provider box = .ok (sz, va)) :
    va = box.valign := by
  obtain ⟨eh, ew, est⟩ := el
  unfold svg_size at hsz
  cases hm : provider.mathjax with
  | none =>
    rw [hm] at hsz
    simp at hsz
    exact hsz.2.symm
  | some hdl =>
    rw [hm, hel] at hsz
    unfold keeps_valign at hkeep
    cases est with
    | none =>
      simp at hsz
      exact hsz.2.symm
    | some st =>
      simp only at hkeep hsz
      cases hr : rulesOfStyle st with
      | error e =>
        rw [hr] at hsz
        simp at hsz
      | ok rules =>
        rw [hr] at hsz
        rw [hr] at hkeep
        dsimp only at hsz hkeep
        cases hv : parse_css_length (rules_get rules "vertical-align") with
        | none =>
          rw [hv] at hsz
          simp at hsz
          exact hsz.2.symm
        | some va2 =>
          rw [hv] at hsz
          rw [hv] at hkeep
          simp at hkeep
          simp [hkeep.1, hkeep.2] at hsz
          exact hsz.2.symm

/-- Witness for C10: a `vertical-align: 2pt` rule (unit neither `ex` nor
`px`) leaves the inherited `valign = 7` untouched. -/
theorem C10_witness :
    to_svg envSample providerPt boxV7 = .ok elPt
    ∧ keeps_valign elPt.style = true
    ∧ svg_size envSample providerPt boxV7 = .ok ((some 12, some 6), 7)
    ∧ (7 : ℚ) = boxV7.valign :=
  ⟨by with_unfolding_all rfl, by with_unfolding_all rfl, by with_unfolding_all rfl,
   C10_valign_unchanged envSample providerPt boxV7 elPt (some 12, some 6) 7
     (by with_unfolding_all rfl) (by with_unfolding_all rfl) (by with_unfolding_all rfl)⟩

end Bokeh
